import Mathlib

/-!
Verification of the marcr MARC21 field 006 ("Additional Material Characteristics")
code tables and positional codec.

The code tables and the `AdditionalMaterialCharacteristics` record type are
embedded directly from the source. Each Rust enum derives num_enum's
`FromPrimitive` with a `#[default]` variant (here `fromByte`: a total function
matching the explicit discriminants and falling through to the default) and
`IntoPrimitive` (here `toByte`: the discriminant value of each variant).
-/

set_option linter.dupNamespace false

namespace Marcr

/-- Code table `Illustration` from the source; discriminants are the canonical byte values. -/
inductive Illustration
  | None
  | Some
  | Maps
  | Portraits
  | Charts
  | Plans
  | Plates
  | Music
  | Facsimiles
  | CoatsOfArms
  | GenealogicalTables
  | Forms
  | Samples
  | Phonodiscs
  | Photographs
  | Illuminations
  | NotCoded
  deriving DecidableEq, Fintype, Repr

/-- `IntoPrimitive`: the canonical byte of each `Illustration` variant. -/
def Illustration.toByte : Illustration → Nat
  | .None => 35
  | .Some => 97
  | .Maps => 98
  | .Portraits => 99
  | .Charts => 100
  | .Plans => 101
  | .Plates => 102
  | .Music => 103
  | .Facsimiles => 104
  | .CoatsOfArms => 105
  | .GenealogicalTables => 106
  | .Forms => 107
  | .Samples => 108
  | .Phonodiscs => 109
  | .Photographs => 111
  | .Illuminations => 112
  | .NotCoded => 124

/-- `FromPrimitive`: total decode of a byte; any unlisted value yields the default `NotCoded`. -/
def Illustration.fromByte : Nat → Illustration
  | 35 => .None
  | 97 => .Some
  | 98 => .Maps
  | 99 => .Portraits
  | 100 => .Charts
  | 101 => .Plans
  | 102 => .Plates
  | 103 => .Music
  | 104 => .Facsimiles
  | 105 => .CoatsOfArms
  | 106 => .GenealogicalTables
  | 107 => .Forms
  | 108 => .Samples
  | 109 => .Phonodiscs
  | 111 => .Photographs
  | 112 => .Illuminations
  | _ => .NotCoded

/-- Code table `TargetAudience` from the source; discriminants are the canonical byte values. -/
inductive TargetAudience
  | Unknown
  | Preschool
  | Primary
  | PreAdolescent
  | Adolescent
  | Adult
  | Specialized
  | General
  | Juvenile
  | NotCoded
  deriving DecidableEq, Fintype, Repr

/-- `IntoPrimitive`: the canonical byte of each `TargetAudience` variant. -/
def TargetAudience.toByte : TargetAudience → Nat
  | .Unknown => 35
  | .Preschool => 97
  | .Primary => 98
  | .PreAdolescent => 99
  | .Adolescent => 100
  | .Adult => 101
  | .Specialized => 102
  | .General => 103
  | .Juvenile => 106
  | .NotCoded => 124

/-- `FromPrimitive`: total decode of a byte; any unlisted value yields the default `NotCoded`. -/
def TargetAudience.fromByte : Nat → TargetAudience
  | 35 => .Unknown
  | 97 => .Preschool
  | 98 => .Primary
  | 99 => .PreAdolescent
  | 100 => .Adolescent
  | 101 => .Adult
  | 102 => .Specialized
  | 103 => .General
  | 106 => .Juvenile
  | _ => .NotCoded

/-- Code table `FormOfItem` from the source; discriminants are the canonical byte values. -/
inductive FormOfItem
  | None
  | Microfilm
  | Microfiche
  | Microopaque
  | LargePrint
  | Newspaper
  | Braille
  | Online
  | DirectElectronic
  | PrintReproduction
  | Electronic
  | NotCoded
  deriving DecidableEq, Fintype, Repr

/-- `IntoPrimitive`: the canonical byte of each `FormOfItem` variant. -/
def FormOfItem.toByte : FormOfItem → Nat
  | .None => 35
  | .Microfilm => 97
  | .Microfiche => 98
  | Microopaque => 99
  | .LargePrint => 100
  | .Newspaper => 101
  | .Braille => 102
  | .Online => 111
  | .DirectElectronic => 113
  | .PrintReproduction => 114
  | .Electronic => 115
  | .NotCoded => 124

/-- `FromPrimitive`: total decode of a byte; any unlisted value yields the default `NotCoded`. -/
def FormOfItem.fromByte : Nat → FormOfItem
  | 35 => .None
  | 97 => .Microfilm
  | 98 => .Microfiche
  | 99 => Microopaque
  | 100 => .LargePrint
  | 101 => .Newspaper
  | 102 => .Braille
  | 111 => .Online
  | 113 => .DirectElectronic
  | 114 => .PrintReproduction
  | 115 => .Electronic
  | _ => .NotCoded

/-- Code table `NatureOfContents` from the source; discriminants are the canonical byte values. -/
inductive NatureOfContents
  | None
  | Abstracts
  | Bibliographies
  | Catalogs
  | Dictionaries
  | Encyclopedias
  | Handbooks
  | LegalArticles
  | Indexes
  | PatentDocument
  | Discographies
  | Legislation
  | Theses
  | SurveysOfLiterature
  | Reviews
  | ProgrammedTexts
  | Filmographies
  | Directories
  | Statistics
  | TechnicalReports
  | Standards
  | LegalCases
  | LawReports
  | Yearbooks
  | Treaties
  | Offprints
  | Calendars
  | Comics
  | NotCoded
  deriving DecidableEq, Fintype, Repr

/-- `IntoPrimitive`: the canonical byte of each `NatureOfContents` variant. -/
def NatureOfContents.toByte : NatureOfContents → Nat
  | .None => 35
  | .Abstracts => 97
  | .Bibliographies => 98
  | .Catalogs => 99
  | .Dictionaries => 100
  | .Encyclopedias => 101
  | .Handbooks => 102
  | .LegalArticles => 103
  | .Indexes => 105
  | .PatentDocument => 106
  | .Discographies => 107
  | .Legislation => 108
  | .Theses => 109
  | .SurveysOfLiterature => 110
  | .Reviews => 111
  | .ProgrammedTexts => 112
  | .Filmographies => 113
  | .Directories => 114
  | .Statistics => 115
  | .TechnicalReports => 116
  | .Standards => 117
  | .LegalCases => 118
  | .LawReports => 119
  | .Yearbooks => 121
  | .Treaties => 122
  | .Offprints => 50
  | .Calendars => 53
  | .Comics => 54
  | .NotCoded => 124

/-- `FromPrimitive`: total decode of a byte; any unlisted value yields the default `NotCoded`. -/
def NatureOfContents.fromByte : Nat → NatureOfContents
  | 35 => .None
  | 97 => .Abstracts
  | 98 => .Bibliographies
  | 99 => .Catalogs
  | 100 => .Dictionaries
  | 101 => .Encyclopedias
  | 102 => .Handbooks
  | 103 => .LegalArticles
  | 105 => .Indexes
  | 106 => .PatentDocument
  | 107 => .Discographies
  | 108 => .Legislation
  | 109 => .Theses
  | 110 => .SurveysOfLiterature
  | 111 => .Reviews
  | 112 => .ProgrammedTexts
  | 113 => .Filmographies
  | 114 => .Directories
  | 115 => .Statistics
  | 116 => .TechnicalReports
  | 117 => .Standards
  | 118 => .LegalCases
  | 119 => .LawReports
  | 121 => .Yearbooks
  | 122 => .Treaties
  | 50 => .Offprints
  | 53 => .Calendars
  | 54 => .Comics
  | _ => .NotCoded

/-- Code table `GovernmentPublication` from the source; discriminants are the canonical byte values. -/
inductive GovernmentPublication
  | None
  | Autonomous
  | Multilocal
  | Federal
  | International
  | Local
  | Multistate
  | Undetermined
  | State
  | Unknown
  | Other
  | NotCoded
  deriving DecidableEq, Fintype, Repr

/-- `IntoPrimitive`: the canonical byte of each `GovernmentPublication` variant. -/
def GovernmentPublication.toByte : GovernmentPublication → Nat
  | .None => 35
  | .Autonomous => 97
  | .Multilocal => 99
  | .Federal => 102
  | .International => 105
  | .Local => 108
  | .Multistate => 109
  | .Undetermined => 111
  | .State => 115
  | .Unknown => 117
  | .Other => 122
  | .NotCoded => 124

/-- `FromPrimitive`: total decode of a byte; any unlisted value yields the default `NotCoded`. -/
def GovernmentPublication.fromByte : Nat → GovernmentPublication
  | 35 => .None
  | 97 => .Autonomous
  | 99 => .Multilocal
  | 102 => .Federal
  | 105 => .International
  | 108 => .Local
  | 109 => .Multistate
  | 111 => .Undetermined
  | 115 => .State
  | 117 => .Unknown
  | 122 => .Other
  | _ => .NotCoded

/-- Code table `ConferencePublication` from the source; discriminants are the canonical byte values. -/
inductive ConferencePublication
  | NonConference
  | Conference
  | NotCoded
  deriving DecidableEq, Fintype, Repr

/-- `IntoPrimitive`: the canonical byte of each `ConferencePublication` variant. -/
def ConferencePublication.toByte : ConferencePublication → Nat
  | .NonConference => 48
  | .Conference => 49
  | .NotCoded => 124

/-- `FromPrimitive`: total decode of a byte; any unlisted value yields the default `NotCoded`. -/
def ConferencePublication.fromByte : Nat → ConferencePublication
  | 48 => .NonConference
  | 49 => .Conference
  | _ => .NotCoded

/-- Code table `Festschrift` from the source; discriminants are the canonical byte values. -/
inductive Festschrift
  | NotFestschrift
  | Festschrift
  | NotCoded
  deriving DecidableEq, Fintype, Repr

/-- `IntoPrimitive`: the canonical byte of each `Festschrift` variant. -/
def Festschrift.toByte : Marcr.Festschrift → Nat
  | .NotFestschrift => 48
  | .Festschrift => 49
  | .NotCoded => 124

/-- `FromPrimitive`: total decode of a byte; any unlisted value yields the default `NotCoded`. -/
def Festschrift.fromByte : Nat → Marcr.Festschrift
  | 48 => .NotFestschrift
  | 49 => .Festschrift
  | _ => .NotCoded

/-- Code table `Index` from the source; discriminants are the canonical byte values. -/
inductive Index
  | None
  | Index
  | NotCoded
  deriving DecidableEq, Fintype, Repr

/-- `IntoPrimitive`: the canonical byte of each `Index` variant. -/
def Index.toByte : Marcr.Index → Nat
  | .None => 48
  | .Index => 49
  | .NotCoded => 124

/-- `FromPrimitive`: total decode of a byte; any unlisted value yields the default `NotCoded`. -/
def Index.fromByte : Nat → Marcr.Index
  | 48 => .None
  | 49 => .Index
  | _ => .NotCoded

/-- Code table `LiteraryForm` from the source; discriminants are the canonical byte values. -/
inductive LiteraryForm
  | NotFiction
  | Fiction
  | Dramas
  | Essays
  | Novels
  | Humor
  | Letters
  | ShortStories
  | MixedForms
  | Poetry
  | Speeches
  | Unknown
  | NotCoded
  deriving DecidableEq, Fintype, Repr

/-- `IntoPrimitive`: the canonical byte of each `LiteraryForm` variant. -/
def LiteraryForm.toByte : LiteraryForm → Nat
  | .NotFiction => 48
  | .Fiction => 49
  | .Dramas => 100
  | .Essays => 101
  | .Novels => 102
  | .Humor => 104
  | .Letters => 105
  | .ShortStories => 106
  | .MixedForms => 109
  | .Poetry => 112
  | .Speeches => 115
  | .Unknown => 117
  | .NotCoded => 124

/-- `FromPrimitive`: total decode of a byte; any unlisted value yields the default `NotCoded`. -/
def LiteraryForm.fromByte : Nat → LiteraryForm
  | 48 => .NotFiction
  | 49 => .Fiction
  | 100 => .Dramas
  | 101 => .Essays
  | 102 => .Novels
  | 104 => .Humor
  | 105 => .Letters
  | 106 => .ShortStories
  | 109 => .MixedForms
  | 112 => .Poetry
  | 115 => .Speeches
  | 117 => .Unknown
  | _ => .NotCoded

/-- Code table `Biography` from the source; discriminants are the canonical byte values. -/
inductive Biography
  | None
  | Autobiography
  | Individual
  | Collective
  | Contains
  | NotCoded
  deriving DecidableEq, Fintype, Repr

/-- `IntoPrimitive`: the canonical byte of each `Biography` variant. -/
def Biography.toByte : Biography → Nat
  | .None => 35
  | .Autobiography => 97
  | .Individual => 98
  | .Collective => 99
  | .Contains => 100
  | .NotCoded => 124

/-- `FromPrimitive`: total decode of a byte; any unlisted value yields the default `NotCoded`. -/
def Biography.fromByte : Nat → Biography
  | 35 => .None
  | 97 => .Autobiography
  | 98 => .Individual
  | 99 => .Collective
  | 100 => .Contains
  | _ => .NotCoded

/-- Code table `FileType` from the source; discriminants are the canonical byte values. -/
inductive FileType
  | Numeric
  | ComputerProgram
  | Representational
  | Document
  | Bibliographic
  | Font
  | Game
  | Sound
  | InteractiveMultimedia
  | OnlineSystem
  | Combination
  | Unknown
  | Other
  | NotCoded
  deriving DecidableEq, Fintype, Repr

/-- `IntoPrimitive`: the canonical byte of each `FileType` variant. -/
def FileType.toByte : FileType → Nat
  | .Numeric => 97
  | .ComputerProgram => 98
  | .Representational => 99
  | .Document => 100
  | .Bibliographic => 101
  | .Font => 102
  | .Game => 103
  | .Sound => 104
  | .InteractiveMultimedia => 105
  | .OnlineSystem => 106
  | .Combination => 109
  | .Unknown => 117
  | .Other => 122
  | .NotCoded => 124

/-- `FromPrimitive`: total decode of a byte; any unlisted value yields the default `NotCoded`. -/
def FileType.fromByte : Nat → FileType
  | 97 => .Numeric
  | 98 => .ComputerProgram
  | 99 => .Representational
  | 100 => .Document
  | 101 => .Bibliographic
  | 102 => .Font
  | 103 => .Game
  | 104 => .Sound
  | 105 => .InteractiveMultimedia
  | 106 => .OnlineSystem
  | 109 => .Combination
  | 117 => .Unknown
  | 122 => .Other
  | _ => .NotCoded

/-- Code table `Relief` from the source; discriminants are the canonical byte values. -/
inductive Relief
  | None
  | Contours
  | Shading
  | Gradient
  | Hachures
  | Bathymetry
  | FormLines
  | SpotHeights
  | Pictorially
  | LandForms
  | Isolines
  | RockDrawings
  | Other
  | NotCoded
  deriving DecidableEq, Fintype, Repr

/-- `IntoPrimitive`: the canonical byte of each `Relief` variant. -/
def Relief.toByte : Relief → Nat
  | .None => 35
  | .Contours => 97
  | .Shading => 98
  | .Gradient => 99
  | .Hachures => 100
  | .Bathymetry => 101
  | .FormLines => 102
  | .SpotHeights => 103
  | .Pictorially => 105
  | .LandForms => 106
  | .Isolines => 107
  | .RockDrawings => 109
  | .Other => 122
  | .NotCoded => 124

/-- `FromPrimitive`: total decode of a byte; any unlisted value yields the default `NotCoded`. -/
def Relief.fromByte : Nat → Relief
  | 35 => .None
  | 97 => .Contours
  | 98 => .Shading
  | 99 => .Gradient
  | 100 => .Hachures
  | 101 => .Bathymetry
  | 102 => .FormLines
  | 103 => .SpotHeights
  | 105 => .Pictorially
  | 106 => .LandForms
  | 107 => .Isolines
  | 109 => .RockDrawings
  | 122 => .Other
  | _ => .NotCoded

/-- Code table `Projection` from the source; discriminants are the canonical byte pair packed as hi <<< 8 ||| lo values. -/
inductive Projection
  | NotSpecified
  | Aitoff
  | Gnomic
  | LambertAzimuthal
  | Orthographic
  | AzimuthalEquidistant
  | Stereographic
  | GeneralVerticalNearSided
  | ModifiedStereographicAlaska
  | ChamberlinTrimetric
  | PolarStereographic
  | AzimuthalUnknown
  | AzimuthalOther
  | Gall
  | GoodeHomolographic
  | LambertCylindrical
  | Mercator
  | Miller
  | Mollweide
  | Sinusoidal
  | TransverseMercator
  | GaussKruger
  | Equirectangular
  | Krovak
  | CassiniSoldner
  | ObliqueMercator
  | Robinson
  | SpaceObliqueMercator
  | CylindricalUnknown
  | CylindricalOther
  | AlbersEqualArea
  | Bonne
  | LambertConformalConic
  | EquidistantConic
  | Polyconic
  | ConicUnknown
  | ConicOther
  | Armadillo
  | Butterfly
  | Eckert
  | GoodeHomolosine
  | MillerBipolarObliqueConformal
  | VanDerGrinten
  | Dimaxion
  | Cordiform
  | LambertConformal
  | Other
  | NotCoded
  deriving DecidableEq, Fintype, Repr

/-- `IntoPrimitive`: the canonical packed byte-pair key of each `Projection` variant. -/
def Projection.toByte : Projection → Nat
  | .NotSpecified => 8995
  | .Aitoff => 24929
  | .Gnomic => 24930
  | .LambertAzimuthal => 24931
  | .Orthographic => 24932
  | .AzimuthalEquidistant => 24933
  | .Stereographic => 24934
  | .GeneralVerticalNearSided => 24935
  | .ModifiedStereographicAlaska => 24941
  | .ChamberlinTrimetric => 24942
  | .PolarStereographic => 24944
  | .AzimuthalUnknown => 24949
  | .AzimuthalOther => 24954
  | .Gall => 25185
  | .GoodeHomolographic => 25186
  | .LambertCylindrical => 25187
  | .Mercator => 25188
  | .Miller => 25189
  | .Mollweide => 25190
  | .Sinusoidal => 25191
  | .TransverseMercator => 25192
  | .GaussKruger => 25193
  | .Equirectangular => 25194
  | .Krovak => 25195
  | .CassiniSoldner => 25196
  | .ObliqueMercator => 25199
  | .Robinson => 25202
  | .SpaceObliqueMercator => 25203
  | .CylindricalUnknown => 25205
  | .CylindricalOther => 25210
  | .AlbersEqualArea => 25441
  | .Bonne => 25442
  | .LambertConformalConic => 25443
  | .EquidistantConic => 25445
  | .Polyconic => 25456
  | .ConicUnknown => 25461
  | .ConicOther => 25466
  | .Armadillo => 25697
  | .Butterfly => 25698
  | .Eckert => 25699
  | .GoodeHomolosine => 25700
  | .MillerBipolarObliqueConformal => 25701
  | .VanDerGrinten => 25702
  | .Dimaxion => 25703
  | .Cordiform => 25704
  | .LambertConformal => 25708
  | .Other => 31354
  | .NotCoded => 31868

/-- `FromPrimitive`: total decode of a packed byte-pair key; any unlisted value yields the default `NotCoded`. -/
def Projection.fromByte : Nat → Projection
  | 8995 => .NotSpecified
  | 24929 => .Aitoff
  | 24930 => .Gnomic
  | 24931 => .LambertAzimuthal
  | 24932 => .Orthographic
  | 24933 => .AzimuthalEquidistant
  | 24934 => .Stereographic
  | 24935 => .GeneralVerticalNearSided
  | 24941 => .ModifiedStereographicAlaska
  | 24942 => .ChamberlinTrimetric
  | 24944 => .PolarStereographic
  | 24949 => .AzimuthalUnknown
  | 24954 => .AzimuthalOther
  | 25185 => .Gall
  | 25186 => .GoodeHomolographic
  | 25187 => .LambertCylindrical
  | 25188 => .Mercator
  | 25189 => .Miller
  | 25190 => .Mollweide
  | 25191 => .Sinusoidal
  | 25192 => .TransverseMercator
  | 25193 => .GaussKruger
  | 25194 => .Equirectangular
  | 25195 => .Krovak
  | 25196 => .CassiniSoldner
  | 25199 => .ObliqueMercator
  | 25202 => .Robinson
  | 25203 => .SpaceObliqueMercator
  | 25205 => .CylindricalUnknown
  | 25210 => .CylindricalOther
  | 25441 => .AlbersEqualArea
  | 25442 => .Bonne
  | 25443 => .LambertConformalConic
  | 25445 => .EquidistantConic
  | 25456 => .Polyconic
  | 25461 => .ConicUnknown
  | 25466 => .ConicOther
  | 25697 => .Armadillo
  | 25698 => .Butterfly
  | 25699 => .Eckert
  | 25700 => .GoodeHomolosine
  | 25701 => .MillerBipolarObliqueConformal
  | 25702 => .VanDerGrinten
  | 25703 => .Dimaxion
  | 25704 => .Cordiform
  | 25708 => .LambertConformal
  | 31354 => .Other
  | _ => .NotCoded

/-- Code table `CartographicType` from the source; discriminants are the canonical byte values. -/
inductive CartographicType
  | SingleMap
  | MapSeries
  | MapSerial
  | Globe
  | Atlas
  | Supplement
  | Part
  | Unknown
  | Other
  | NotCoded
  deriving DecidableEq, Fintype, Repr

/-- `IntoPrimitive`: the canonical byte of each `CartographicType` variant. -/
def CartographicType.toByte : CartographicType → Nat
  | .SingleMap => 97
  | .MapSeries => 98
  | .MapSerial => 99
  | .Globe => 100
  | .Atlas => 101
  | .Supplement => 102
  | .Part => 103
  | .Unknown => 117
  | .Other => 122
  | .NotCoded => 124

/-- `FromPrimitive`: total decode of a byte; any unlisted value yields the default `NotCoded`. -/
def CartographicType.fromByte : Nat → CartographicType
  | 97 => .SingleMap
  | 98 => .MapSeries
  | 99 => .MapSerial
  | 100 => .Globe
  | 101 => .Atlas
  | 102 => .Supplement
  | 103 => .Part
  | 117 => .Unknown
  | 122 => .Other
  | _ => .NotCoded

/-- Code table `SpecialFormatCharacteristics` from the source; discriminants are the canonical byte values. -/
inductive SpecialFormatCharacteristics
  | None
  | Manuscript
  | PictureCard
  | Calendar
  | Puzzle
  | Game
  | WallMap
  | PlayingCards
  | LooseLeaf
  | Other
  | NotCoded
  deriving DecidableEq, Fintype, Repr

/-- `IntoPrimitive`: the canonical byte of each `SpecialFormatCharacteristics` variant. -/
def SpecialFormatCharacteristics.toByte : SpecialFormatCharacteristics → Nat
  | .None => 35
  | .Manuscript => 101
  | .PictureCard => 106
  | .Calendar => 107
  | .Puzzle => 108
  | .Game => 110
  | .WallMap => 111
  | .PlayingCards => 112
  | .LooseLeaf => 114
  | .Other => 122
  | .NotCoded => 124

/-- `FromPrimitive`: total decode of a byte; any unlisted value yields the default `NotCoded`. -/
def SpecialFormatCharacteristics.fromByte : Nat → SpecialFormatCharacteristics
  | 35 => .None
  | 101 => .Manuscript
  | 106 => .PictureCard
  | 107 => .Calendar
  | 108 => .Puzzle
  | 110 => .Game
  | 111 => .WallMap
  | 112 => .PlayingCards
  | 114 => .LooseLeaf
  | 122 => .Other
  | _ => .NotCoded

/-- Code table `FormOfComposition` from the source; discriminants are the canonical byte pair packed as hi <<< 8 ||| lo values. -/
inductive FormOfComposition
  | Anthems
  | Ballads
  | Bluegrass
  | Blues
  | Ballet
  | Chaconne
  | Chant
  | ChristianChant
  | Concerti
  | Chorale
  | ChoralePrelude
  | Canon
  | Concerto
  | Chanson
  | Carols
  | Chance
  | Cantata
  | Country
  | Canzona
  | Dance
  | Divertimento
  | Fugue
  | Flamenco
  | Folk
  | Fantasia
  | Gospel
  | Hymn
  | Jazz
  | Musical
  | Madrigal
  | Minuet
  | Motet
  | Motion
  | March
  | Mass
  | Multiple
  | Mazurka
  | Nocturne
  | NotApplicable
  | Opera
  | Oratorio
  | Overture
  | Program
  | Passion
  | Polonaise
  | Popular
  | Prelude
  | Passacaglia
  | Part
  | Pavan
  | Rock
  | Rondo
  | Ragtime
  | Ricercar
  | Rhapsody
  | Requiem
  | Square
  | Songs
  | Sonata
  | Symphonic
  | Study
  | Suite
  | Symphony
  | Toccata
  | Teatro
  | TrioSonata
  | Unknown
  | Villancico
  | Variation
  | Waltz
  | Zarzuela
  | Other
  | NotCoded
  deriving DecidableEq, Fintype, Repr

/-- `IntoPrimitive`: the canonical packed byte-pair key of each `FormOfComposition` variant. -/
def FormOfComposition.toByte : FormOfComposition → Nat
  | .Anthems => 24942
  | .Ballads => 25188
  | .Bluegrass => 25191
  | .Blues => 25196
  | .Ballet => 25204
  | .Chaconne => 25441
  | .Chant => 25442
  | .ChristianChant => 25443
  | .Concerti => 25447
  | .Chorale => 25448
  | .ChoralePrelude => 25452
  | .Canon => 25454
  | .Concerto => 25455
  | .Chanson => 25456
  | .Carols => 25458
  | .Chance => 25459
  | .Cantata => 25460
  | .Country => 25465
  | .Canzona => 25466
  | .Dance => 25702
  | .Divertimento => 25718
  | .Fugue => 26215
  | .Flamenco => 26220
  | .Folk => 26221
  | .Fantasia => 26228
  | .Gospel => 26477
  | .Hymn => 26745
  | .Jazz => 27258
  | .Musical => 28003
  | .Madrigal => 28004
  | .Minuet => 28009
  | .Motet => 28015
  | .Motion => 28016
  | .March => 28018
  | .Mass => 28019
  | .Multiple => 28021
  | .Mazurka => 28026
  | .Nocturne => 28259
  | .NotApplicable => 28270
  | .Opera => 28528
  | .Oratorio => 28530
  | .Overture => 28534
  | .Program => 28775
  | .Passion => 28781
  | .Polonaise => 28783
  | .Popular => 28784
  | .Prelude => 28786
  | .Passacaglia => 28787
  | .Part => 28788
  | .Pavan => 28790
  | .Rock => 29283
  | .Rondo => 29284
  | .Ragtime => 29287
  | .Ricercar => 29289
  | .Rhapsody => 29296
  | .Requiem => 29297
  | .Square => 29540
  | .Songs => 29543
  | .Sonata => 29550
  | .Symphonic => 29552
  | .Study => 29556
  | .Suite => 29557
  | .Symphony => 29561
  | .Toccata => 29795
  | .Teatro => 29804
  | .TrioSonata => 29811
  | .Unknown => 30069
  | .Villancico => 30313
  | .Variation => 30322
  | .Waltz => 30586
  | .Zarzuela => 31329
  | .Other => 31354
  | .NotCoded => 31868

/-- `FromPrimitive`: total decode of a packed byte-pair key; any unlisted value yields the default `NotCoded`. -/
def FormOfComposition.fromByte : Nat → FormOfComposition
  | 24942 => .Anthems
  | 25188 => .Ballads
  | 25191 => .Bluegrass
  | 25196 => .Blues
  | 25204 => .Ballet
  | 25441 => .Chaconne
  | 25442 => .Chant
  | 25443 => .ChristianChant
  | 25447 => .Concerti
  | 25448 => .Chorale
  | 25452 => .ChoralePrelude
  | 25454 => .Canon
  | 25455 => .Concerto
  | 25456 => .Chanson
  | 25458 => .Carols
  | 25459 => .Chance
  | 25460 => .Cantata
  | 25465 => .Country
  | 25466 => .Canzona
  | 25702 => .Dance
  | 25718 => .Divertimento
  | 26215 => .Fugue
  | 26220 => .Flamenco
  | 26221 => .Folk
  | 26228 => .Fantasia
  | 26477 => .Gospel
  | 26745 => .Hymn
  | 27258 => .Jazz
  | 28003 => .Musical
  | 28004 => .Madrigal
  | 28009 => .Minuet
  | 28015 => .Motet
  | 28016 => .Motion
  | 28018 => .March
  | 28019 => .Mass
  | 28021 => .Multiple
  | 28026 => .Mazurka
  | 28259 => .Nocturne
  | 28270 => .NotApplicable
  | 28528 => .Opera
  | 28530 => .Oratorio
  | 28534 => .Overture
  | 28775 => .Program
  | 28781 => .Passion
  | 28783 => .Polonaise
  | 28784 => .Popular
  | 28786 => .Prelude
  | 28787 => .Passacaglia
  | 28788 => .Part
  | 28790 => .Pavan
  | 29283 => .Rock
  | 29284 => .Rondo
  | 29287 => .Ragtime
  | 29289 => .Ricercar
  | 29296 => .Rhapsody
  | 29297 => .Requiem
  | 29540 => .Square
  | 29543 => .Songs
  | 29550 => .Sonata
  | 29552 => .Symphonic
  | 29556 => .Study
  | 29557 => .Suite
  | 29561 => .Symphony
  | 29795 => .Toccata
  | 29804 => .Teatro
  | 29811 => .TrioSonata
  | 30069 => .Unknown
  | 30313 => .Villancico
  | 30322 => .Variation
  | 30586 => .Waltz
  | 31329 => .Zarzuela
  | 31354 => .Other
  | _ => .NotCoded

/-- Code table `FormatOfMusic` from the source; discriminants are the canonical byte values. -/
inductive FormatOfMusic
  | Full
  | Miniature
  | Accompaniment
  | Voice
  | CondensedOrConductor
  | Close
  | Chorus
  | Condensed
  | Performer
  | Vocal
  | Score
  | Multiple
  | Not
  | Piano
  | Unknown
  | Other
  | NotCoded
  deriving DecidableEq, Fintype, Repr

/-- `IntoPrimitive`: the canonical byte of each `FormatOfMusic` variant. -/
def FormatOfMusic.toByte : FormatOfMusic → Nat
  | .Full => 97
  | .Miniature => 98
  | .Accompaniment => 99
  | .Voice => 100
  | .CondensedOrConductor => 101
  | .Close => 103
  | .Chorus => 104
  | .Condensed => 105
  | .Performer => 106
  | .Vocal => 107
  | .Score => 108
  | .Multiple => 109
  | .Not => 110
  | .Piano => 112
  | .Unknown => 117
  | .Other => 122
  | .NotCoded => 124

/-- `FromPrimitive`: total decode of a byte; any unlisted value yields the default `NotCoded`. -/
def FormatOfMusic.fromByte : Nat → FormatOfMusic
  | 97 => .Full
  | 98 => .Miniature
  | 99 => .Accompaniment
  | 100 => .Voice
  | 101 => .CondensedOrConductor
  | 103 => .Close
  | 104 => .Chorus
  | 105 => .Condensed
  | 106 => .Performer
  | 107 => .Vocal
  | 108 => .Score
  | 109 => .Multiple
  | 110 => .Not
  | 112 => .Piano
  | 117 => .Unknown
  | 122 => .Other
  | _ => .NotCoded

/-- Code table `MusicParts` from the source; discriminants are the canonical byte values. -/
inductive MusicParts
  | None
  | InstrumentalAndVocal
  | Instrumental
  | Vocal
  | Not
  | Unknown
  | NotCoded
  deriving DecidableEq, Fintype, Repr

/-- `IntoPrimitive`: the canonical byte of each `MusicParts` variant. -/
def MusicParts.toByte : MusicParts → Nat
  | .None => 35
  | .InstrumentalAndVocal => 100
  | .Instrumental => 101
  | .Vocal => 102
  | .Not => 110
  | .Unknown => 117
  | .NotCoded => 124

/-- `FromPrimitive`: total decode of a byte; any unlisted value yields the default `NotCoded`. -/
def MusicParts.fromByte : Nat → MusicParts
  | 35 => .None
  | 100 => .InstrumentalAndVocal
  | 101 => .Instrumental
  | 102 => .Vocal
  | 110 => .Not
  | 117 => .Unknown
  | _ => .NotCoded

/-- Code table `AccompanyingMatter` from the source; discriminants are the canonical byte values. -/
inductive AccompanyingMatter
  | None
  | Discography
  | Bibliography
  | Thematic
  | Libretto
  | BiographyComposer
  | BiographyPerformer
  | TechnicalInstruments
  | TechnicalMusic
  | Historical
  | Ethnological
  | Instructional
  | Music
  | Other
  | NotCoded
  deriving DecidableEq, Fintype, Repr

/-- `IntoPrimitive`: the canonical byte of each `AccompanyingMatter` variant. -/
def AccompanyingMatter.toByte : AccompanyingMatter → Nat
  | .None => 35
  | .Discography => 97
  | .Bibliography => 98
  | .Thematic => 99
  | .Libretto => 100
  | .BiographyComposer => 101
  | .BiographyPerformer => 102
  | .TechnicalInstruments => 103
  | .TechnicalMusic => 104
  | .Historical => 105
  | .Ethnological => 107
  | .Instructional => 114
  | .Music => 115
  | .Other => 122
  | .NotCoded => 124

/-- `FromPrimitive`: total decode of a byte; any unlisted value yields the default `NotCoded`. -/
def AccompanyingMatter.fromByte : Nat → AccompanyingMatter
  | 35 => .None
  | 97 => .Discography
  | 98 => .Bibliography
  | 99 => .Thematic
  | 100 => .Libretto
  | 101 => .BiographyComposer
  | 102 => .BiographyPerformer
  | 103 => .TechnicalInstruments
  | 104 => .TechnicalMusic
  | 105 => .Historical
  | 107 => .Ethnological
  | 114 => .Instructional
  | 115 => .Music
  | 122 => .Other
  | _ => .NotCoded

/-- Code table `MusicText` from the source; discriminants are the canonical byte values. -/
inductive MusicText
  | Music
  | Autobiography
  | Biography
  | Conference
  | Drama
  | Essays
  | Fiction
  | Reporting
  | History
  | Instruction
  | Language
  | Comedy
  | Lectures
  | Memoirs
  | Not
  | Folktales
  | Poetry
  | Rehearsals
  | Sounds
  | Interviews
  | Other
  | NotCoded
  deriving DecidableEq, Fintype, Repr

/-- `IntoPrimitive`: the canonical byte of each `MusicText` variant. -/
def MusicText.toByte : MusicText → Nat
  | .Music => 35
  | .Autobiography => 97
  | .Biography => 98
  | .Conference => 99
  | .Drama => 100
  | .Essays => 101
  | .Fiction => 102
  | .Reporting => 103
  | .History => 104
  | .Instruction => 105
  | .Language => 106
  | .Comedy => 107
  | .Lectures => 108
  | .Memoirs => 109
  | .Not => 110
  | .Folktales => 111
  | .Poetry => 112
  | .Rehearsals => 114
  | .Sounds => 115
  | .Interviews => 116
  | .Other => 122
  | .NotCoded => 124

/-- `FromPrimitive`: total decode of a byte; any unlisted value yields the default `NotCoded`. -/
def MusicText.fromByte : Nat → MusicText
  | 35 => .Music
  | 97 => .Autobiography
  | 98 => .Biography
  | 99 => .Conference
  | 100 => .Drama
  | 101 => .Essays
  | 102 => .Fiction
  | 103 => .Reporting
  | 104 => .History
  | 105 => .Instruction
  | 106 => .Language
  | 107 => .Comedy
  | 108 => .Lectures
  | 109 => .Memoirs
  | 110 => .Not
  | 111 => .Folktales
  | 112 => .Poetry
  | 114 => .Rehearsals
  | 115 => .Sounds
  | 116 => .Interviews
  | 122 => .Other
  | _ => .NotCoded

/-- Code table `TranspositionArrangement` from the source; discriminants are the canonical byte values. -/
inductive TranspositionArrangement
  | None
  | Transposition
  | Arrangement
  | Both
  | NotApplicable
  | Unknown
  | NotCoded
  deriving DecidableEq, Fintype, Repr

/-- `IntoPrimitive`: the canonical byte of each `TranspositionArrangement` variant. -/
def TranspositionArrangement.toByte : TranspositionArrangement → Nat
  | .None => 35
  | .Transposition => 97
  | .Arrangement => 98
  | .Both => 99
  | .NotApplicable => 110
  | .Unknown => 117
  | .NotCoded => 124

/-- `FromPrimitive`: total decode of a byte; any unlisted value yields the default `NotCoded`. -/
def TranspositionArrangement.fromByte : Nat → TranspositionArrangement
  | 35 => .None
  | 97 => .Transposition
  | 98 => .Arrangement
  | 99 => .Both
  | 110 => .NotApplicable
  | 117 => .Unknown
  | _ => .NotCoded

/-- Code table `Frequency` from the source; discriminants are the canonical byte values. -/
inductive Frequency
  | None
  | Annual
  | Bimonthly
  | Semiweekly
  | Daily
  | Biweekly
  | Semiannual
  | Biennial
  | Triennial
  | ThreeWeekly
  | ThreeMonthly
  | Continuously
  | Monthly
  | Quarterly
  | Semimonthly
  | Three
  | Unknown
  | Weekly
  | Other
  | NotCoded
  deriving DecidableEq, Fintype, Repr

/-- `IntoPrimitive`: the canonical byte of each `Frequency` variant. -/
def Frequency.toByte : Frequency → Nat
  | .None => 35
  | .Annual => 97
  | .Bimonthly => 98
  | .Semiweekly => 99
  | .Daily => 100
  | .Biweekly => 101
  | .Semiannual => 102
  | .Biennial => 103
  | .Triennial => 104
  | .ThreeWeekly => 105
  | .ThreeMonthly => 106
  | .Continuously => 107
  | .Monthly => 109
  | .Quarterly => 113
  | .Semimonthly => 115
  | .Three => 116
  | .Unknown => 117
  | .Weekly => 119
  | .Other => 122
  | .NotCoded => 124

/-- `FromPrimitive`: total decode of a byte; any unlisted value yields the default `NotCoded`. -/
def Frequency.fromByte : Nat → Frequency
  | 35 => .None
  | 97 => .Annual
  | 98 => .Bimonthly
  | 99 => .Semiweekly
  | 100 => .Daily
  | 101 => .Biweekly
  | 102 => .Semiannual
  | 103 => .Biennial
  | 104 => .Triennial
  | 105 => .ThreeWeekly
  | 106 => .ThreeMonthly
  | 107 => .Continuously
  | 109 => .Monthly
  | 113 => .Quarterly
  | 115 => .Semimonthly
  | 116 => .Three
  | 117 => .Unknown
  | 119 => .Weekly
  | 122 => .Other
  | _ => .NotCoded

/-- Code table `Regularity` from the source; discriminants are the canonical byte values. -/
inductive Regularity
  | Normalized
  | Regular
  | Unknown
  | Completely
  | NotCoded
  deriving DecidableEq, Fintype, Repr

/-- `IntoPrimitive`: the canonical byte of each `Regularity` variant. -/
def Regularity.toByte : Regularity → Nat
  | .Normalized => 110
  | .Regular => 114
  | .Unknown => 117
  | .Completely => 120
  | .NotCoded => 124

/-- `FromPrimitive`: total decode of a byte; any unlisted value yields the default `NotCoded`. -/
def Regularity.fromByte : Nat → Regularity
  | 110 => .Normalized
  | 114 => .Regular
  | 117 => .Unknown
  | 120 => .Completely
  | _ => .NotCoded

/-- Code table `PublicationType` from the source; discriminants are the canonical byte values. -/
inductive PublicationType
  | None
  | UpdatingDatabase
  | Magazine
  | Blog
  | Journal
  | UpdatingLooseLeaf
  | Monographic
  | Newspaper
  | Periodical
  | Repository
  | Newsletter
  | Directory
  | UpdatingWeb
  | NotCoded
  deriving DecidableEq, Fintype, Repr

/-- `IntoPrimitive`: the canonical byte of each `PublicationType` variant. -/
def PublicationType.toByte : PublicationType → Nat
  | .None => 35
  | .UpdatingDatabase => 100
  | .Magazine => 103
  | .Blog => 104
  | .Journal => 106
  | .UpdatingLooseLeaf => 108
  | .Monographic => 109
  | .Newspaper => 110
  | .Periodical => 112
  | .Repository => 114
  | .Newsletter => 115
  | .Directory => 116
  | .UpdatingWeb => 119
  | .NotCoded => 124

/-- `FromPrimitive`: total decode of a byte; any unlisted value yields the default `NotCoded`. -/
def PublicationType.fromByte : Nat → PublicationType
  | 35 => .None
  | 100 => .UpdatingDatabase
  | 103 => .Magazine
  | 104 => .Blog
  | 106 => .Journal
  | 108 => .UpdatingLooseLeaf
  | 109 => .Monographic
  | 110 => .Newspaper
  | 112 => .Periodical
  | 114 => .Repository
  | 115 => .Newsletter
  | 116 => .Directory
  | 119 => .UpdatingWeb
  | _ => .NotCoded

/-- Code table `AlphabetScript` from the source; discriminants are the canonical byte values. -/
inductive AlphabetScript
  | None
  | BasicRoman
  | ExtendedRoman
  | Cyrillic
  | Japanese
  | Chinese
  | Arabic
  | Greek
  | Hebrew
  | Thai
  | Devanagari
  | Korean
  | Tamil
  | Unknown
  | Other
  | NotCoded
  deriving DecidableEq, Fintype, Repr

/-- `IntoPrimitive`: the canonical byte of each `AlphabetScript` variant. -/
def AlphabetScript.toByte : AlphabetScript → Nat
  | .None => 35
  | .BasicRoman => 97
  | .ExtendedRoman => 98
  | .Cyrillic => 99
  | .Japanese => 100
  | .Chinese => 101
  | .Arabic => 102
  | .Greek => 103
  | .Hebrew => 104
  | .Thai => 105
  | .Devanagari => 106
  | .Korean => 107
  | .Tamil => 108
  | .Unknown => 117
  | .Other => 122
  | .NotCoded => 124

/-- `FromPrimitive`: total decode of a byte; any unlisted value yields the default `NotCoded`. -/
def AlphabetScript.fromByte : Nat → AlphabetScript
  | 35 => .None
  | 97 => .BasicRoman
  | 98 => .ExtendedRoman
  | 99 => .Cyrillic
  | 100 => .Japanese
  | 101 => .Chinese
  | 102 => .Arabic
  | 103 => .Greek
  | 104 => .Hebrew
  | 105 => .Thai
  | 106 => .Devanagari
  | 107 => .Korean
  | 108 => .Tamil
  | 117 => .Unknown
  | 122 => .Other
  | _ => .NotCoded

/-- Code table `EntryConvention` from the source; discriminants are the canonical byte values. -/
inductive EntryConvention
  | Successive
  | Latest
  | Integrated
  | NotCoded
  deriving DecidableEq, Fintype, Repr

/-- `IntoPrimitive`: the canonical byte of each `EntryConvention` variant. -/
def EntryConvention.toByte : EntryConvention → Nat
  | .Successive => 48
  | .Latest => 49
  | .Integrated => 50
  | .NotCoded => 124

/-- `FromPrimitive`: total decode of a byte; any unlisted value yields the default `NotCoded`. -/
def EntryConvention.fromByte : Nat → EntryConvention
  | 48 => .Successive
  | 49 => .Latest
  | 50 => .Integrated
  | _ => .NotCoded
/-- 16-bit packing of an ordered byte pair, as used by the discriminants of the
two-character code tables `Projection` and `FormOfComposition`. -/
def pack (hi lo : Nat) : Nat := (hi <<< 8) ||| lo

/-- The restricted code alphabet: 35, the decimal digits 48-57, the lowercase
letters 97-122, and 124. -/
def validByte (b : Nat) : Prop :=
  b = 35 ∨ b = 124 ∨ (48 ≤ b ∧ b ≤ 57) ∨ (97 ≤ b ∧ b ≤ 122)

instance (b : Nat) : Decidable (validByte b) := by
  unfold validByte
  infer_instance

/-- The material-type discriminant: one kind per arm of
`AdditionalMaterialCharacteristics`, supplied by the caller. -/
inductive MaterialKind
  | Book
  | ComputerFile
  | Map
  | MixedMaterials
  | Music
  | ContinuingResources
  deriving DecidableEq, Fintype, Repr

/-- The record type from the source: a tagged union with one arm per material
kind; fixed-size sequences `[T; n]` are embedded as `Fin n → T`. Field order and
positions follow the source's declarations and doc comments. -/
inductive AdditionalMaterialCharacteristics
  | Book
      (manuscript : Bool)
      (illustrations : Fin 4 → Illustration)
      (target_audience : TargetAudience)
      (form_of_item : FormOfItem)
      (nature_of_contents : Fin 4 → NatureOfContents)
      (government_publication : GovernmentPublication)
      (conference_publication : ConferencePublication)
      (festschrift : Festschrift)
      (index : Index)
      (literary_form : LiteraryForm)
      (biography : Biography)
  | ComputerFile
      (target_audience : TargetAudience)
      (form_of_item : FormOfItem)
      (file_type : FileType)
      (government_publication : GovernmentPublication)
  | Map
      (manuscript : Bool)
      (relief : Fin 4 → Relief)
      (projection : Projection)
      (cartographic_type : CartographicType)
      (government_publication : GovernmentPublication)
      (form_of_item : FormOfItem)
      (index : Index)
      (special_format_characteristics : Fin 2 → SpecialFormatCharacteristics)
  | MixedMaterials
      (form_of_item : FormOfItem)
  | Music
      (recorded : Bool)
      (manuscript : Bool)
      (musical : Bool)
      (form_of_composition : FormOfComposition)
      (format_of_music : FormatOfMusic)
      (parts : MusicParts)
      (target_audience : TargetAudience)
      (form_of_item : FormOfItem)
      (accompanying_matter : Fin 6 → AccompanyingMatter)
      (literary_text : Fin 2 → MusicText)
      (transposition_and_arrangement : TranspositionArrangement)
  | ContinuingResources
      (frequency : Frequency)
      (regularity : Regularity)
      (form_of_original : FormOfItem)
      (form_of_current : FormOfItem)
      (nature_of_work : NatureOfContents)
      (nature_of_content : Fin 3 → NatureOfContents)
      (government_publication : GovernmentPublication)
      (conference_publication : ConferencePublication)
      (original_alphabet_or_script : AlphabetScript)

/-- The material kind of a record: exhaustive dispatch over the six arms. -/
def kindOf : AdditionalMaterialCharacteristics → MaterialKind
  | .Book .. => .Book
  | .ComputerFile .. => .ComputerFile
  | .Map .. => .Map
  | .MixedMaterials .. => .MixedMaterials
  | .Music .. => .Music
  | .ContinuingResources .. => .ContinuingResources

/-- The six material kinds, in source declaration order. -/
def allKinds : List MaterialKind :=
  [.Book, .ComputerFile, .Map, .MixedMaterials, .Music, .ContinuingResources]

/-- Modelled from the spec: the repository sources contain only the table and
record type definitions, not the codec, so the fixed field width comes from the
spec: field 006 is 18 bytes wide for every material kind. -/
def layoutWidth : MaterialKind → Nat := fun _ => 18

/-- Modelled from the spec: reading byte `i` of the raw field, treating a
missing byte (a field shorter than the layout requires) as the fallback
byte 124. The codec itself is not present under src/. -/
def byteAt (f : List Nat) (i : Nat) : Nat := f.getD i 124

/-- Modelled from the spec: the positional decode, absent from src/, assembled
from the spec's layout-walk contract and the byte positions given in the record
type's doc comments (position 15 is bound to no field for Book/Map/Music, and
Book's biography occupies the final position 17). Position 0 of Book/Map/Music
is the small byte-to-booleans table the spec describes outside the generic code
table abstraction. -/
def decode : MaterialKind → List Nat → AdditionalMaterialCharacteristics
  | .Book, f =>
      .Book (byteAt f 0 == 116)
        (fun i => Illustration.fromByte (byteAt f (1 + i.val)))
        (TargetAudience.fromByte (byteAt f 5))
        (FormOfItem.fromByte (byteAt f 6))
        (fun i => NatureOfContents.fromByte (byteAt f (7 + i.val)))
        (GovernmentPublication.fromByte (byteAt f 11))
        (ConferencePublication.fromByte (byteAt f 12))
        (Festschrift.fromByte (byteAt f 13))
        (Index.fromByte (byteAt f 14))
        (LiteraryForm.fromByte (byteAt f 16))
        (Biography.fromByte (byteAt f 17))
  | .ComputerFile, f =>
      .ComputerFile (TargetAudience.fromByte (byteAt f 5))
        (FormOfItem.fromByte (byteAt f 6))
        (FileType.fromByte (byteAt f 9))
        (GovernmentPublication.fromByte (byteAt f 11))
  | .Map, f =>
      .Map (byteAt f 0 == 102)
        (fun i => Relief.fromByte (byteAt f (1 + i.val)))
        (Projection.fromByte (pack (byteAt f 5) (byteAt f 6)))
        (CartographicType.fromByte (byteAt f 8))
        (GovernmentPublication.fromByte (byteAt f 11))
        (FormOfItem.fromByte (byteAt f 12))
        (Index.fromByte (byteAt f 14))
        (fun i => SpecialFormatCharacteristics.fromByte (byteAt f (16 + i.val)))
  | .MixedMaterials, f =>
      .MixedMaterials (FormOfItem.fromByte (byteAt f 6))
  | .Music, f =>
      .Music (byteAt f 0 == 99 || byteAt f 0 == 100)
        (byteAt f 0 == 100)
        (!(byteAt f 0 == 105))
        (FormOfComposition.fromByte (pack (byteAt f 1) (byteAt f 2)))
        (FormatOfMusic.fromByte (byteAt f 3))
        (MusicParts.fromByte (byteAt f 4))
        (TargetAudience.fromByte (byteAt f 5))
        (FormOfItem.fromByte (byteAt f 6))
        (fun i => AccompanyingMatter.fromByte (byteAt f (7 + i.val)))
        (fun i => MusicText.fromByte (byteAt f (13 + i.val)))
        (TranspositionArrangement.fromByte (byteAt f 16))
  | .ContinuingResources, f =>
      .ContinuingResources (Frequency.fromByte (byteAt f 1))
        (Regularity.fromByte (byteAt f 2))
        (FormOfItem.fromByte (byteAt f 5))
        (FormOfItem.fromByte (byteAt f 6))
        (NatureOfContents.fromByte (byteAt f 7))
        (fun i => NatureOfContents.fromByte (byteAt f (8 + i.val)))
        (GovernmentPublication.fromByte (byteAt f 11))
        (ConferencePublication.fromByte (byteAt f 12))
        (AlphabetScript.fromByte (byteAt f 16))

/-- Modelled from the spec: the positional encode, absent from src/. Each field's
canonical byte is written at its bound offset, a two-character code contributes
its high byte then its low byte, every unbound position is padded with the
fallback byte 124, and the output is always the fixed 18-byte width. -/
def encode : AdditionalMaterialCharacteristics → List Nat
  | .Book ms ill ta foi noc gp conf fest ix lf bio =>
      List.ofFn fun i : Fin 18 =>
        match i.val with
        | 0 => if ms then 116 else 97
        | 1 => Illustration.toByte (ill 0)
        | 2 => Illustration.toByte (ill 1)
        | 3 => Illustration.toByte (ill 2)
        | 4 => Illustration.toByte (ill 3)
        | 5 => TargetAudience.toByte ta
        | 6 => FormOfItem.toByte foi
        | 7 => NatureOfContents.toByte (noc 0)
        | 8 => NatureOfContents.toByte (noc 1)
        | 9 => NatureOfContents.toByte (noc 2)
        | 10 => NatureOfContents.toByte (noc 3)
        | 11 => GovernmentPublication.toByte gp
        | 12 => ConferencePublication.toByte conf
        | 13 => Festschrift.toByte fest
        | 14 => Index.toByte ix
        | 16 => LiteraryForm.toByte lf
        | 17 => Biography.toByte bio
        | _ => 124
  | .ComputerFile ta foi ft gp =>
      List.ofFn fun i : Fin 18 =>
        match i.val with
        | 5 => TargetAudience.toByte ta
        | 6 => FormOfItem.toByte foi
        | 9 => FileType.toByte ft
        | 11 => GovernmentPublication.toByte gp
        | _ => 124
  | .Map ms rel proj ct gp foi ix sfc =>
      List.ofFn fun i : Fin 18 =>
        match i.val with
        | 0 => if ms then 102 else 101
        | 1 => Relief.toByte (rel 0)
        | 2 => Relief.toByte (rel 1)
        | 3 => Relief.toByte (rel 2)
        | 4 => Relief.toByte (rel 3)
        | 5 => Projection.toByte proj / 256
        | 6 => Projection.toByte proj % 256
        | 8 => CartographicType.toByte ct
        | 11 => GovernmentPublication.toByte gp
        | 12 => FormOfItem.toByte foi
        | 14 => Index.toByte ix
        | 16 => SpecialFormatCharacteristics.toByte (sfc 0)
        | 17 => SpecialFormatCharacteristics.toByte (sfc 1)
        | _ => 124
  | .MixedMaterials foi =>
      List.ofFn fun i : Fin 18 =>
        match i.val with
        | 6 => FormOfItem.toByte foi
        | _ => 124
  | .Music rec ms mus foc fom pts ta foi am lt taa =>
      List.ofFn fun i : Fin 18 =>
        match i.val with
        | 0 => if ms then 100 else if rec then 99 else if mus then 106 else 105
        | 1 => FormOfComposition.toByte foc / 256
        | 2 => FormOfComposition.toByte foc % 256
        | 3 => FormatOfMusic.toByte fom
        | 4 => MusicParts.toByte pts
        | 5 => TargetAudience.toByte ta
        | 6 => FormOfItem.toByte foi
        | 7 => AccompanyingMatter.toByte (am 0)
        | 8 => AccompanyingMatter.toByte (am 1)
        | 9 => AccompanyingMatter.toByte (am 2)
        | 10 => AccompanyingMatter.toByte (am 3)
        | 11 => AccompanyingMatter.toByte (am 4)
        | 12 => AccompanyingMatter.toByte (am 5)
        | 13 => MusicText.toByte (lt 0)
        | 14 => MusicText.toByte (lt 1)
        | 16 => TranspositionArrangement.toByte taa
        | _ => 124
  | .ContinuingResources fr rg fo fc nw nc gp conf als =>
      List.ofFn fun i : Fin 18 =>
        match i.val with
        | 1 => Frequency.toByte fr
        | 2 => Regularity.toByte rg
        | 5 => FormOfItem.toByte fo
        | 6 => FormOfItem.toByte fc
        | 7 => NatureOfContents.toByte nw
        | 8 => NatureOfContents.toByte (nc 0)
        | 9 => NatureOfContents.toByte (nc 1)
        | 10 => NatureOfContents.toByte (nc 2)
        | 11 => GovernmentPublication.toByte gp
        | 12 => ConferencePublication.toByte conf
        | 16 => AlphabetScript.toByte als
        | _ => 124


theorem validByte_lt_256 (b : Nat) (h : validByte b) : b < 256 := by
  rcases h with h | h | h | h <;> omega

theorem pack_eq_mul_add (hi lo : Nat) (h : lo < 256) : pack hi lo = 256 * hi + lo := by
  unfold pack
  rw [Nat.shiftLeft_eq, show (2:Nat) ^ 8 = 256 from rfl, Nat.mul_comm]
  have h2 : lo < 2 ^ 8 := h
  exact (Nat.mul_add_lt_is_or h2 hi).symm

theorem encode_length (r : AdditionalMaterialCharacteristics) : (encode r).length = 18 := by
  cases r <;> exact List.length_ofFn _

set_option maxRecDepth 100000 in
set_option maxHeartbeats 2000000 in
/-- Claim C1: in every single-byte code table, any byte that is not one of the
table's explicitly listed canonical bytes decodes to the designated NotCoded
fallback variant; decode is total over all 256 byte values. -/
theorem claim1_unlisted_byte_decodes_to_fallback :
    (∀ b : Fin 256, (∀ v : Illustration, Illustration.toByte v ≠ b.val) → Illustration.fromByte b.val = Illustration.NotCoded) ∧
    (∀ b : Fin 256, (∀ v : TargetAudience, TargetAudience.toByte v ≠ b.val) → TargetAudience.fromByte b.val = TargetAudience.NotCoded) ∧
    (∀ b : Fin 256, (∀ v : FormOfItem, FormOfItem.toByte v ≠ b.val) → FormOfItem.fromByte b.val = FormOfItem.NotCoded) ∧
    (∀ b : Fin 256, (∀ v : NatureOfContents, NatureOfContents.toByte v ≠ b.val) → NatureOfContents.fromByte b.val = NatureOfContents.NotCoded) ∧
    (∀ b : Fin 256, (∀ v : GovernmentPublication, GovernmentPublication.toByte v ≠ b.val) → GovernmentPublication.fromByte b.val = GovernmentPublication.NotCoded) ∧
    (∀ b : Fin 256, (∀ v : ConferencePublication, ConferencePublication.toByte v ≠ b.val) → ConferencePublication.fromByte b.val = ConferencePublication.NotCoded) ∧
    (∀ b : Fin 256, (∀ v : Festschrift, Festschrift.toByte v ≠ b.val) → Festschrift.fromByte b.val = Festschrift.NotCoded) ∧
    (∀ b : Fin 256, (∀ v : Index, Index.toByte v ≠ b.val) → Index.fromByte b.val = Index.NotCoded) ∧
    (∀ b : Fin 256, (∀ v : LiteraryForm, LiteraryForm.toByte v ≠ b.val) → LiteraryForm.fromByte b.val = LiteraryForm.NotCoded) ∧
    (∀ b : Fin 256, (∀ v : Biography, Biography.toByte v ≠ b.val) → Biography.fromByte b.val = Biography.NotCoded) ∧
    (∀ b : Fin 256, (∀ v : FileType, FileType.toByte v ≠ b.val) → FileType.fromByte b.val = FileType.NotCoded) ∧
    (∀ b : Fin 256, (∀ v : Relief, Relief.toByte v ≠ b.val) → Relief.fromByte b.val = Relief.NotCoded) ∧
    (∀ b : Fin 256, (∀ v : CartographicType, CartographicType.toByte v ≠ b.val) → CartographicType.fromByte b.val = CartographicType.NotCoded) ∧
    (∀ b : Fin 256, (∀ v : SpecialFormatCharacteristics, SpecialFormatCharacteristics.toByte v ≠ b.val) → SpecialFormatCharacteristics.fromByte b.val = SpecialFormatCharacteristics.NotCoded) ∧
    (∀ b : Fin 256, (∀ v : FormatOfMusic, FormatOfMusic.toByte v ≠ b.val) → FormatOfMusic.fromByte b.val = FormatOfMusic.NotCoded) ∧
    (∀ b : Fin 256, (∀ v : MusicParts, MusicParts.toByte v ≠ b.val) → MusicParts.fromByte b.val = MusicParts.NotCoded) ∧
    (∀ b : Fin 256, (∀ v : AccompanyingMatter, AccompanyingMatter.toByte v ≠ b.val) → AccompanyingMatter.fromByte b.val = AccompanyingMatter.NotCoded) ∧
    (∀ b : Fin 256, (∀ v : MusicText, MusicText.toByte v ≠ b.val) → MusicText.fromByte b.val = MusicText.NotCoded) ∧
    (∀ b : Fin 256, (∀ v : TranspositionArrangement, TranspositionArrangement.toByte v ≠ b.val) → TranspositionArrangement.fromByte b.val = TranspositionArrangement.NotCoded) ∧
    (∀ b : Fin 256, (∀ v : Frequency, Frequency.toByte v ≠ b.val) → Frequency.fromByte b.val = Frequency.NotCoded) ∧
    (∀ b : Fin 256, (∀ v : Regularity, Regularity.toByte v ≠ b.val) → Regularity.fromByte b.val = Regularity.NotCoded) ∧
    (∀ b : Fin 256, (∀ v : PublicationType, PublicationType.toByte v ≠ b.val) → PublicationType.fromByte b.val = PublicationType.NotCoded) ∧
    (∀ b : Fin 256, (∀ v : AlphabetScript, AlphabetScript.toByte v ≠ b.val) → AlphabetScript.fromByte b.val = AlphabetScript.NotCoded) ∧
    (∀ b : Fin 256, (∀ v : EntryConvention, EntryConvention.toByte v ≠ b.val) → EntryConvention.fromByte b.val = EntryConvention.NotCoded) := by
  refine ⟨?_, ?_, ?_, ?_, ?_, ?_, ?_, ?_, ?_, ?_, ?_, ?_, ?_, ?_, ?_, ?_, ?_, ?_, ?_, ?_, ?_, ?_, ?_, ?_⟩ <;> decide

set_option maxRecDepth 100000 in
set_option maxHeartbeats 2000000 in
/-- Witness for C1: byte 57 is not a canonical Illustration byte and decodes to the fallback. -/
theorem claim1_witness : Illustration.fromByte 57 = Illustration.NotCoded :=
  claim1_unlisted_byte_decodes_to_fallback.1 ⟨57, by decide⟩ (by decide)

set_option maxRecDepth 100000 in
set_option maxHeartbeats 2000000 in
/-- Claim C2: in every code table, decoding the canonical byte (or packed byte pair)
of any variant, the fallback included, yields that variant back. -/
theorem claim2_decode_encode_roundtrip :
    (∀ v : Illustration, Illustration.fromByte (Illustration.toByte v) = v) ∧
    (∀ v : TargetAudience, TargetAudience.fromByte (TargetAudience.toByte v) = v) ∧
    (∀ v : FormOfItem, FormOfItem.fromByte (FormOfItem.toByte v) = v) ∧
    (∀ v : NatureOfContents, NatureOfContents.fromByte (NatureOfContents.toByte v) = v) ∧
    (∀ v : GovernmentPublication, GovernmentPublication.fromByte (GovernmentPublication.toByte v) = v) ∧
    (∀ v : ConferencePublication, ConferencePublication.fromByte (ConferencePublication.toByte v) = v) ∧
    (∀ v : Festschrift, Festschrift.fromByte (Festschrift.toByte v) = v) ∧
    (∀ v : Index, Index.fromByte (Index.toByte v) = v) ∧
    (∀ v : LiteraryForm, LiteraryForm.fromByte (LiteraryForm.toByte v) = v) ∧
    (∀ v : Biography, Biography.fromByte (Biography.toByte v) = v) ∧
    (∀ v : FileType, FileType.fromByte (FileType.toByte v) = v) ∧
    (∀ v : Relief, Relief.fromByte (Relief.toByte v) = v) ∧
    (∀ v : Projection, Projection.fromByte (Projection.toByte v) = v) ∧
    (∀ v : CartographicType, CartographicType.fromByte (CartographicType.toByte v) = v) ∧
    (∀ v : SpecialFormatCharacteristics, SpecialFormatCharacteristics.fromByte (SpecialFormatCharacteristics.toByte v) = v) ∧
    (∀ v : FormOfComposition, FormOfComposition.fromByte (FormOfComposition.toByte v) = v) ∧
    (∀ v : FormatOfMusic, FormatOfMusic.fromByte (FormatOfMusic.toByte v) = v) ∧
    (∀ v : MusicParts, MusicParts.fromByte (MusicParts.toByte v) = v) ∧
    (∀ v : AccompanyingMatter, AccompanyingMatter.fromByte (AccompanyingMatter.toByte v) = v) ∧
    (∀ v : MusicText, MusicText.fromByte (MusicText.toByte v) = v) ∧
    (∀ v : TranspositionArrangement, TranspositionArrangement.fromByte (TranspositionArrangement.toByte v) = v) ∧
    (∀ v : Frequency, Frequency.fromByte (Frequency.toByte v) = v) ∧
    (∀ v : Regularity, Regularity.fromByte (Regularity.toByte v) = v) ∧
    (∀ v : PublicationType, PublicationType.fromByte (PublicationType.toByte v) = v) ∧
    (∀ v : AlphabetScript, AlphabetScript.fromByte (AlphabetScript.toByte v) = v) ∧
    (∀ v : EntryConvention, EntryConvention.fromByte (EntryConvention.toByte v) = v) := by
  refine ⟨?_, ?_, ?_, ?_, ?_, ?_, ?_, ?_, ?_, ?_, ?_, ?_, ?_, ?_, ?_, ?_, ?_, ?_, ?_, ?_, ?_, ?_, ?_, ?_, ?_, ?_⟩ <;> decide

set_option maxRecDepth 100000 in
set_option maxHeartbeats 2000000 in
/-- Claim C3: in every single-byte code table, re-encoding the decode of a byte
reproduces that byte exactly when the byte is an explicitly listed canonical byte
(the fallback byte 124 is itself listed); any other byte degrades to the fallback
byte, as the unrecognized byte 57 does in the Illustration table. -/
theorem claim3_encode_decode_fixed_points :
    (Illustration.fromByte 57 = Illustration.NotCoded ∧
      Illustration.toByte (Illustration.fromByte 57) = 124) ∧
    (∀ b : Fin 256, Illustration.toByte (Illustration.fromByte b.val) = b.val ↔ ∃ v : Illustration, Illustration.toByte v = b.val) ∧
    (∀ b : Fin 256, TargetAudience.toByte (TargetAudience.fromByte b.val) = b.val ↔ ∃ v : TargetAudience, TargetAudience.toByte v = b.val) ∧
    (∀ b : Fin 256, FormOfItem.toByte (FormOfItem.fromByte b.val) = b.val ↔ ∃ v : FormOfItem, FormOfItem.toByte v = b.val) ∧
    (∀ b : Fin 256, NatureOfContents.toByte (NatureOfContents.fromByte b.val) = b.val ↔ ∃ v : NatureOfContents, NatureOfContents.toByte v = b.val) ∧
    (∀ b : Fin 256, GovernmentPublication.toByte (GovernmentPublication.fromByte b.val) = b.val ↔ ∃ v : GovernmentPublication, GovernmentPublication.toByte v = b.val) ∧
    (∀ b : Fin 256, ConferencePublication.toByte (ConferencePublication.fromByte b.val) = b.val ↔ ∃ v : ConferencePublication, ConferencePublication.toByte v = b.val) ∧
    (∀ b : Fin 256, Festschrift.toByte (Festschrift.fromByte b.val) = b.val ↔ ∃ v : Festschrift, Festschrift.toByte v = b.val) ∧
    (∀ b : Fin 256, Index.toByte (Index.fromByte b.val) = b.val ↔ ∃ v : Index, Index.toByte v = b.val) ∧
    (∀ b : Fin 256, LiteraryForm.toByte (LiteraryForm.fromByte b.val) = b.val ↔ ∃ v : LiteraryForm, LiteraryForm.toByte v = b.val) ∧
    (∀ b : Fin 256, Biography.toByte (Biography.fromByte b.val) = b.val ↔ ∃ v : Biography, Biography.toByte v = b.val) ∧
    (∀ b : Fin 256, FileType.toByte (FileType.fromByte b.val) = b.val ↔ ∃ v : FileType, FileType.toByte v = b.val) ∧
    (∀ b : Fin 256, Relief.toByte (Relief.fromByte b.val) = b.val ↔ ∃ v : Relief, Relief.toByte v = b.val) ∧
    (∀ b : Fin 256, CartographicType.toByte (CartographicType.fromByte b.val) = b.val ↔ ∃ v : CartographicType, CartographicType.toByte v = b.val) ∧
    (∀ b : Fin 256, SpecialFormatCharacteristics.toByte (SpecialFormatCharacteristics.fromByte b.val) = b.val ↔ ∃ v : SpecialFormatCharacteristics, SpecialFormatCharacteristics.toByte v = b.val) ∧
    (∀ b : Fin 256, FormatOfMusic.toByte (FormatOfMusic.fromByte b.val) = b.val ↔ ∃ v : FormatOfMusic, FormatOfMusic.toByte v = b.val) ∧
    (∀ b : Fin 256, MusicParts.toByte (MusicParts.fromByte b.val) = b.val ↔ ∃ v : MusicParts, MusicParts.toByte v = b.val) ∧
    (∀ b : Fin 256, AccompanyingMatter.toByte (AccompanyingMatter.fromByte b.val) = b.val ↔ ∃ v : AccompanyingMatter, AccompanyingMatter.toByte v = b.val) ∧
    (∀ b : Fin 256, MusicText.toByte (MusicText.fromByte b.val) = b.val ↔ ∃ v : MusicText, MusicText.toByte v = b.val) ∧
    (∀ b : Fin 256, TranspositionArrangement.toByte (TranspositionArrangement.fromByte b.val) = b.val ↔ ∃ v : TranspositionArrangement, TranspositionArrangement.toByte v = b.val) ∧
    (∀ b : Fin 256, Frequency.toByte (Frequency.fromByte b.val) = b.val ↔ ∃ v : Frequency, Frequency.toByte v = b.val) ∧
    (∀ b : Fin 256, Regularity.toByte (Regularity.fromByte b.val) = b.val ↔ ∃ v : Regularity, Regularity.toByte v = b.val) ∧
    (∀ b : Fin 256, PublicationType.toByte (PublicationType.fromByte b.val) = b.val ↔ ∃ v : PublicationType, PublicationType.toByte v = b.val) ∧
    (∀ b : Fin 256, AlphabetScript.toByte (AlphabetScript.fromByte b.val) = b.val ↔ ∃ v : AlphabetScript, AlphabetScript.toByte v = b.val) ∧
    (∀ b : Fin 256, EntryConvention.toByte (EntryConvention.fromByte b.val) = b.val ↔ ∃ v : EntryConvention, EntryConvention.toByte v = b.val) := by
  refine ⟨?_, ?_, ?_, ?_, ?_, ?_, ?_, ?_, ?_, ?_, ?_, ?_, ?_, ?_, ?_, ?_, ?_, ?_, ?_, ?_, ?_, ?_, ?_, ?_, ?_⟩ <;> decide

set_option maxRecDepth 100000 in
set_option maxHeartbeats 2000000 in
/-- Claim C9 (implicit): every canonical byte of every code table lies in the
restricted alphabet of lowercase letters, digits, 35 and 124; for the
two-character tables both bytes of the pair do. -/
theorem claim9_canonical_bytes_in_alphabet :
    (∀ v : Illustration, validByte (Illustration.toByte v)) ∧
    (∀ v : TargetAudience, validByte (TargetAudience.toByte v)) ∧
    (∀ v : FormOfItem, validByte (FormOfItem.toByte v)) ∧
    (∀ v : NatureOfContents, validByte (NatureOfContents.toByte v)) ∧
    (∀ v : GovernmentPublication, validByte (GovernmentPublication.toByte v)) ∧
    (∀ v : ConferencePublication, validByte (ConferencePublication.toByte v)) ∧
    (∀ v : Festschrift, validByte (Festschrift.toByte v)) ∧
    (∀ v : Index, validByte (Index.toByte v)) ∧
    (∀ v : LiteraryForm, validByte (LiteraryForm.toByte v)) ∧
    (∀ v : Biography, validByte (Biography.toByte v)) ∧
    (∀ v : FileType, validByte (FileType.toByte v)) ∧
    (∀ v : Relief, validByte (Relief.toByte v)) ∧
    (∀ v : Projection, validByte (Projection.toByte v / 256) ∧ validByte (Projection.toByte v % 256)) ∧
    (∀ v : CartographicType, validByte (CartographicType.toByte v)) ∧
    (∀ v : SpecialFormatCharacteristics, validByte (SpecialFormatCharacteristics.toByte v)) ∧
    (∀ v : FormOfComposition, validByte (FormOfComposition.toByte v / 256) ∧ validByte (FormOfComposition.toByte v % 256)) ∧
    (∀ v : FormatOfMusic, validByte (FormatOfMusic.toByte v)) ∧
    (∀ v : MusicParts, validByte (MusicParts.toByte v)) ∧
    (∀ v : AccompanyingMatter, validByte (AccompanyingMatter.toByte v)) ∧
    (∀ v : MusicText, validByte (MusicText.toByte v)) ∧
    (∀ v : TranspositionArrangement, validByte (TranspositionArrangement.toByte v)) ∧
    (∀ v : Frequency, validByte (Frequency.toByte v)) ∧
    (∀ v : Regularity, validByte (Regularity.toByte v)) ∧
    (∀ v : PublicationType, validByte (PublicationType.toByte v)) ∧
    (∀ v : AlphabetScript, validByte (AlphabetScript.toByte v)) ∧
    (∀ v : EntryConvention, validByte (EntryConvention.toByte v)) := by
  refine ⟨?_, ?_, ?_, ?_, ?_, ?_, ?_, ?_, ?_, ?_, ?_, ?_, ?_, ?_, ?_, ?_, ?_, ?_, ?_, ?_, ?_, ?_, ?_, ?_, ?_, ?_⟩ <;> decide

/-- Counterexample to C4: the FileType table has no variant for the byte 35,
so decoding 35 yields the NotCoded fallback variant (whose canonical byte is 124),
contradicting the claim that in every table the byte 35 never decodes to the fallback. -/
theorem claim4_counterexample :
    FileType.fromByte 35 = FileType.NotCoded ∧ FileType.toByte FileType.NotCoded = 124 := by
  decide

set_option maxRecDepth 100000 in
set_option maxHeartbeats 2000000 in
/-- Claim C4 as amended: in every single-byte code table that explicitly lists the
byte 35, the byte 35 decodes to its own first-class variant, distinct from the
NotCoded fallback, while 124 decodes to the fallback; in the tables that list no
variant for 35 (ConferencePublication, Festschrift, Index, LiteraryForm, FileType,
CartographicType, FormatOfMusic, Regularity, EntryConvention) the byte 35 falls
through to the NotCoded fallback. -/
theorem claim4_amended_hash_distinct_where_listed :
    (Illustration.fromByte 35 ≠ Illustration.NotCoded ∧ Illustration.fromByte 124 = Illustration.NotCoded) ∧
    (TargetAudience.fromByte 35 ≠ TargetAudience.NotCoded ∧ TargetAudience.fromByte 124 = TargetAudience.NotCoded) ∧
    (FormOfItem.fromByte 35 ≠ FormOfItem.NotCoded ∧ FormOfItem.fromByte 124 = FormOfItem.NotCoded) ∧
    (NatureOfContents.fromByte 35 ≠ NatureOfContents.NotCoded ∧ NatureOfContents.fromByte 124 = NatureOfContents.NotCoded) ∧
    (GovernmentPublication.fromByte 35 ≠ GovernmentPublication.NotCoded ∧ GovernmentPublication.fromByte 124 = GovernmentPublication.NotCoded) ∧
    (Biography.fromByte 35 ≠ Biography.NotCoded ∧ Biography.fromByte 124 = Biography.NotCoded) ∧
    (Relief.fromByte 35 ≠ Relief.NotCoded ∧ Relief.fromByte 124 = Relief.NotCoded) ∧
    (SpecialFormatCharacteristics.fromByte 35 ≠ SpecialFormatCharacteristics.NotCoded ∧ SpecialFormatCharacteristics.fromByte 124 = SpecialFormatCharacteristics.NotCoded) ∧
    (MusicParts.fromByte 35 ≠ MusicParts.NotCoded ∧ MusicParts.fromByte 124 = MusicParts.NotCoded) ∧
    (AccompanyingMatter.fromByte 35 ≠ AccompanyingMatter.NotCoded ∧ AccompanyingMatter.fromByte 124 = AccompanyingMatter.NotCoded) ∧
    (MusicText.fromByte 35 ≠ MusicText.NotCoded ∧ MusicText.fromByte 124 = MusicText.NotCoded) ∧
    (TranspositionArrangement.fromByte 35 ≠ TranspositionArrangement.NotCoded ∧ TranspositionArrangement.fromByte 124 = TranspositionArrangement.NotCoded) ∧
    (Frequency.fromByte 35 ≠ Frequency.NotCoded ∧ Frequency.fromByte 124 = Frequency.NotCoded) ∧
    (PublicationType.fromByte 35 ≠ PublicationType.NotCoded ∧ PublicationType.fromByte 124 = PublicationType.NotCoded) ∧
    (AlphabetScript.fromByte 35 ≠ AlphabetScript.NotCoded ∧ AlphabetScript.fromByte 124 = AlphabetScript.NotCoded) ∧
    (ConferencePublication.fromByte 35 = ConferencePublication.NotCoded) ∧
    (Festschrift.fromByte 35 = Festschrift.NotCoded) ∧
    (Index.fromByte 35 = Index.NotCoded) ∧
    (LiteraryForm.fromByte 35 = LiteraryForm.NotCoded) ∧
    (FileType.fromByte 35 = FileType.NotCoded) ∧
    (CartographicType.fromByte 35 = CartographicType.NotCoded) ∧
    (FormatOfMusic.fromByte 35 = FormatOfMusic.NotCoded) ∧
    (Regularity.fromByte 35 = Regularity.NotCoded) ∧
    (EntryConvention.fromByte 35 = EntryConvention.NotCoded) := by
  refine ⟨?_, ?_, ?_, ?_, ?_, ?_, ?_, ?_, ?_, ?_, ?_, ?_, ?_, ?_, ?_, ?_, ?_, ?_, ?_, ?_, ?_, ?_, ?_, ?_⟩ <;> decide

/-- Claim C5: the codec decode is total — for every material kind and every byte
field of any length and content, the empty field included, it returns a fully
populated record whose arm is the one dictated by the kind. (The codec is
modelled from the spec, the source containing only the tables and record type.) -/
theorem claim5_decode_total_and_shaped :
    ∀ (K : MaterialKind) (f : List Nat), kindOf (decode K f) = K := by
  intro K f
  cases K <;> rfl

/-- Claim C6: re-encoding the decode of any field of any length yields a byte
sequence of exactly the fixed layout width of the kind — 18 bytes — short input
padded with fallback bytes and long input truncated, never erroring. (Codec
modelled from the spec.) -/
theorem claim6_encode_decode_length :
    ∀ (K : MaterialKind) (f : List Nat), (encode (decode K f)).length = layoutWidth K := by
  intro K f
  simpa [layoutWidth] using encode_length (decode K f)

set_option maxRecDepth 100000 in
set_option maxHeartbeats 2000000 in
/-- Claim C7: the 16-bit packing of an ordered byte pair used by the
two-character tables is injective over the valid code alphabet, and in
particular no two distinct Projection or FormOfComposition variants share a
packed key. -/
theorem claim7_pack_injective_on_alphabet :
    (∀ h1 l1 h2 l2 : Nat, validByte h1 → validByte l1 → validByte h2 → validByte l2 →
      pack h1 l1 = pack h2 l2 → h1 = h2 ∧ l1 = l2) ∧
    (∀ v w : Projection, Projection.toByte v = Projection.toByte w → v = w) ∧
    (∀ v w : FormOfComposition, FormOfComposition.toByte v = FormOfComposition.toByte w → v = w) := by
  refine ⟨fun h1 l1 h2 l2 vh1 vl1 vh2 vl2 e => ?_, by decide, by decide⟩
  rw [pack_eq_mul_add h1 l1 (validByte_lt_256 l1 vl1),
    pack_eq_mul_add h2 l2 (validByte_lt_256 l2 vl2)] at e
  have := validByte_lt_256 h1 vh1
  have := validByte_lt_256 l1 vl1
  have := validByte_lt_256 h2 vh2
  have := validByte_lt_256 l2 vl2
  omega

/-- Witness for C7: the packing applied at the concrete alphabet bytes 98 and 99. -/
theorem claim7_witness : (98 : Nat) = 98 ∧ (99 : Nat) = 99 :=
  claim7_pack_injective_on_alphabet.1 98 99 98 99 (by decide) (by decide) (by decide)
    (by decide) rfl

/-- Claim C8: the material-type discriminant is a closed enumeration of exactly
six kinds, dispatch over it is exhaustive, and the record type has one arm per
kind, so every kind is realized by some record. -/
theorem claim8_six_kinds_exhaustive :
    allKinds.Nodup ∧ allKinds.length = 6 ∧ (∀ k : MaterialKind, k ∈ allKinds) ∧
    (∀ k : MaterialKind, ∃ r : AdditionalMaterialCharacteristics, kindOf r = k) := by
  refine ⟨by decide, by decide, by decide, fun k => ?_⟩
  cases k
  · exact ⟨decode .Book [], rfl⟩
  · exact ⟨decode .ComputerFile [], rfl⟩
  · exact ⟨decode .Map [], rfl⟩
  · exact ⟨decode .MixedMaterials [], rfl⟩
  · exact ⟨decode .Music [], rfl⟩
  · exact ⟨decode .ContinuingResources [], rfl⟩

/-- Claim C10 (implicit): the ComputerFile record arm is determined by byte
positions 5, 6, 9 and 11 alone, and the MixedMaterials arm by position 6 alone;
the content of every other position of those fields has no representation in
the decoded record. (Codec modelled from the spec and the record type's
positional doc comments.) -/
theorem claim10_unrepresented_positions_forgotten :
    (∀ f g : List Nat, byteAt f 5 = byteAt g 5 → byteAt f 6 = byteAt g 6 →
      byteAt f 9 = byteAt g 9 → byteAt f 11 = byteAt g 11 →
      decode .ComputerFile f = decode .ComputerFile g) ∧
    (∀ f g : List Nat, byteAt f 6 = byteAt g 6 →
      decode .MixedMaterials f = decode .MixedMaterials g) := by
  constructor
  · intro f g h5 h6 h9 h11
    simp only [decode, h5, h6, h9, h11]
  · intro f g h6
    simp only [decode, h6]

/-- Witness for C10: a field carrying the byte 57 at the unrepresented
position 0 decodes to the same ComputerFile record as the empty field. -/
theorem claim10_witness :
    decode MaterialKind.ComputerFile [57] = decode MaterialKind.ComputerFile [] :=
  claim10_unrepresented_positions_forgotten.1 [57] [] rfl rfl rfl rfl

end Marcr
